import Mathlib
/-!
# Verification of the restweb CRUD backend (`src/main.py`)

A shallow embedding of the FastAPI application in `src/main.py`: the relational
store becomes an explicit `DB` state (one list of rows per table, plus the
SERIAL counters), the filesystem content root becomes an association list from
path to byte content, and each request handler becomes a Lean function from the
state and the validated input to the new state and an `Except HttpError`
response.  A raised `HTTPException(status, detail)` is embedded as
`Except.error ⟨status, detail⟩`.

The password hasher delegates to the external passlib/bcrypt library, whose
internals are outside the repository; it is modelled from the spec's §4.1
contract (salted digest, verify by recomputation, malformed digest reported as
a verification failure).
-/

namespace RestWeb
/-- An HTTP error response: `raise HTTPException(status_code, detail)`. -/
structure HttpError where
  status : Nat
  detail : String
deriving DecidableEq, Repr
/-! ## Decimal rendering of naturals, and its inverse

Used by the password-hasher model to embed numbers in the digest string.
-/

/-- The character for a single decimal digit. -/
def digitChar (d : Nat) : Char := Char.ofNat (48 + d)
/-- Decimal digit writer, structurally recursive on a fuel bound so that the
kernel can evaluate it (`natDigits` supplies `n` itself as fuel). -/
def natDigitsGo : Nat → Nat → List Char
  | 0, n => [digitChar n]
  | fuel + 1, n =>
    if n < 10 then [digitChar n]
    else natDigitsGo fuel (n / 10) ++ [digitChar (n % 10)]
/-- Decimal digit sequence of a natural number, most significant first. -/
def natDigits (n : Nat) : List Char := natDigitsGo n n
/-- Read one decimal digit back. -/
def charToDigit (c : Char) : Option Nat :=
  if 48 ≤ c.toNat ∧ c.toNat ≤ 57 then some (c.toNat - 48) else none
/-- Accumulating decimal reader over a digit list. -/
def readNatAux : List Char → Nat → Option Nat
  | [], acc => some acc
  | c :: cs, acc =>
    match charToDigit c with
    | some d => readNatAux cs (acc * 10 + d)
    | none => none
/-- Read a (nonempty, all-digit) character list as a natural number. -/
def readNat (l : List Char) : Option Nat :=
  match l with
  | [] => none
  | _ :: _ => readNatAux l 0
/-! ## Password Hasher

`Modelled from the spec:` the repository's `hash_password` / `verify_password`
(src/main.py lines 69–74) delegate to the external passlib `CryptContext`
(bcrypt), whose internals are outside the repository.  Following §4.1 of the
spec, `hash_password` produces a salted digest from which `verify_password`
recomputes and compares, and a digest that does not parse is reported as a
verification failure (`false`), not a fault.  The bcrypt key derivation is
modelled by the keyed mixing function `mash` (64-bit accumulator); the digest
string carries the bcrypt-style prefix, the salt, and the checksum.
-/

/-- Keyed one-way mixing of a password with a salt (64-bit accumulator),
standing in for the bcrypt key derivation. -/
def mash (salt : Nat) (p : String) : Nat :=
  p.data.foldl (fun a c => (a * 31 + c.toNat) % 2 ^ 64) (salt % 2 ^ 64)
/-- The `$2b$12$` prefix of a bcrypt digest (cost factor 12, passlib's default). -/
def bcryptPrefixChars : List Char := ['$', '2', 'b', '$', '1', '2', '$']
/-- `hash_password`: salted digest of the submitted password. -/
def hash_password (salt : Nat) (password : String) : String :=
  String.mk (bcryptPrefixChars ++ natDigits salt ++ '$' :: natDigits (mash salt password))
/-- Split a character list at its first `'$'`; `none` when there is none. -/
def splitAtDollar : List Char → Option (List Char × List Char)
  | [] => none
  | c :: cs =>
    if c = '$' then some ([], cs)
    else
      match splitAtDollar cs with
      | some (l, r) => some (c :: l, r)
      | none => none
/-- Parse a digest back into its salt and checksum; `none` on a malformed digest. -/
def parseDigest (digest : String) : Option (Nat × Nat) :=
  match digest.data with
  | '$' :: '2' :: 'b' :: '$' :: '1' :: '2' :: '$' :: rest =>
    match splitAtDollar rest with
    | some (saltPart, sumPart) =>
      match readNat saltPart, readNat sumPart with
      | some s, some m => some (s, m)
      | _, _ => none
    | none => none
  | _ => none
/-- `verify_password`: recompute the checksum under the digest's salt and
compare; a malformed digest yields `false` rather than an exception. -/
def verify_password (plain_password : String) (hashed_password : String) : Bool :=
  match parseDigest hashed_password with
  | some (s, m) => mash s plain_password == m
  | none => false
/-! ## Datetimes

`BookingInput.datetime` is an ISO-8601 instant, possibly carrying a timezone
offset.  A wall-clock reading in minutes together with an optional offset from
UTC (in minutes; `none` = timezone-naive) captures exactly what the
`ensure_timezone` validator inspects.  A value `⟨w, some o⟩` denotes the UTC
instant `w - o`.
-/

structure DateTimeVal where
  wallMinutes : Int
  tzOffset : Option Int
deriving DecidableEq, Repr
/-- The `ensure_timezone` pydantic validator (src/main.py lines 45–51): a naive
value gets `tzinfo=utc` attached (same wall clock), then `astimezone(utc)`
converts to the equivalent UTC instant. -/
def ensure_timezone (value : DateTimeVal) : DateTimeVal :=
  let value := if value.tzOffset = none then { value with tzOffset := some 0 } else value
  match value.tzOffset with
  | some o => ⟨value.wallMinutes - o, some 0⟩
  | none => value
/-! ## Rows and database state

One structure per table of the schema in `startup` (src/main.py lines 77–160).
`created_at TIMESTAMP DEFAULT CURRENT_TIMESTAMP` is filled from a `now`
parameter passed to each insert.  `price FLOAT` is only stored and echoed,
never computed with, so an integer payload stands in for the float.  SERIAL
ids are drawn from per-table counters carried in the state.
-/

structure UserRow where
  id : Nat
  user_id : String
  email : String
  username : String
  password : String
  created_at : Int
deriving DecidableEq, Repr
structure BookingRow where
  id : Nat
  user_id : String
  name : String
  email : String
  datetime : DateTimeVal
  no_of_people : Int
  special_request : Option String
  created_at : Int
deriving DecidableEq, Repr
structure ContactRow where
  id : Nat
  name : String
  email : String
  subject : String
  message : String
  created_at : Int
deriving DecidableEq, Repr
structure EventRow where
  id : Nat
  pic_path : String
  name : String
  description : String
  price : Int
  created_at : Int
deriving DecidableEq, Repr
structure ServiceRow where
  id : Nat
  image_path : String
  name : String
  description : String
  created_at : Int
deriving DecidableEq, Repr
structure TeamMemberRow where
  id : Nat
  image_path : String
  name : String
  designation : String
  description : String
  created_at : Int
deriving DecidableEq, Repr
structure DB where
  users : List UserRow
  bookings : List BookingRow
  contacts : List ContactRow
  events : List EventRow
  services : List ServiceRow
  team_members : List TeamMemberRow
  nextUserId : Nat
  nextBookingId : Nat
  nextContactId : Nat
  nextEventId : Nat
  nextServiceId : Nat
  nextTeamMemberId : Nat
deriving DecidableEq, Repr
def emptyDB : DB := ⟨[], [], [], [], [], [], 1, 1, 1, 1, 1, 1⟩
/-- The filesystem content root: association list from path to byte content. -/
abbrev FileSystem := List (String × List Nat)
def fsWrite (fs : FileSystem) (path : String) (content : List Nat) : FileSystem :=
  (path, content) :: fs.filter (fun kv => !(kv.1 == path))
def fsRead (fs : FileSystem) (path : String) : Option (List Nat) :=
  (fs.find? (fun kv => kv.1 == path)).map (·.2)
/-- `UPLOAD_DIR = Path("uploaded_images")` (src/main.py line 20). -/
def UPLOAD_DIR : String := "uploaded_images"
/-! ## Validated inputs -/

structure UserSignup where
  email : String
  username : String
  password : String
deriving DecidableEq, Repr
structure UserLogin where
  email : String
  password : String
deriving DecidableEq, Repr
structure BookingInput where
  user_id : String
  name : String
  email : String
  datetime : DateTimeVal
  no_of_people : Int
  special_request : Option String
deriving DecidableEq, Repr
/-- Pydantic construction of a `BookingInput`: the `ensure_timezone` validator
runs on the submitted `datetime` before the handler sees it. -/
def mkBookingInput (user_id name email : String) (dt : DateTimeVal)
    (no_of_people : Int) (special_request : Option String) : BookingInput :=
  ⟨user_id, name, email, ensure_timezone dt, no_of_people, special_request⟩
/-! ## Responses -/

structure SignupResponse where
  message : String
  user_id : String
deriving DecidableEq, Repr
structure LoginUser where
  user_id : String
  email : String
  username : String
deriving DecidableEq, Repr
structure LoginResponse where
  message : String
  user : LoginUser
deriving DecidableEq, Repr
structure MessageResponse where
  message : String
deriving DecidableEq, Repr
structure BookingView where
  name : String
  email : String
  datetime : DateTimeVal
  no_of_people : Int
  special_request : Option String
deriving DecidableEq, Repr
structure BookingsResponse where
  user_id : String
  bookings : List BookingView
deriving DecidableEq, Repr
structure EventView where
  id : Nat
  pic_path : String
  name : String
  description : String
  price : Int
  created_at : Int
deriving DecidableEq, Repr
structure ServiceView where
  id : Nat
  image_path : String
  name : String
  description : String
  created_at : Int
deriving DecidableEq, Repr
structure TeamMemberView where
  id : Nat
  image_path : String
  name : String
  designation : String
  description : String
  created_at : Int
deriving DecidableEq, Repr
/-! ## User routes -/

/-- The lookup `SELECT * FROM users WHERE email = $1` via `fetchrow`:
the first stored row with that email. -/
def findUserByEmail (db : DB) (email : String) : Option UserRow :=
  db.users.find? (fun r => r.email == email)
/-- `POST /signup/` (src/main.py lines 177–192).  `freshUuid` is the value of
`str(uuid.uuid4())`, `salt` the salt bcrypt draws, `now` the stored-row
creation timestamp; all three come from the environment. -/
def signup (db : DB) (now : Int) (freshUuid : String) (salt : Nat)
    (user : UserSignup) : DB × Except HttpError SignupResponse :=
  match findUserByEmail db user.email with
  | some _ => (db, .error ⟨400, "Email is already registered."⟩)
  | none =>
    let user_id := freshUuid
    let hashed_password := hash_password salt user.password
    let row : UserRow := ⟨db.nextUserId, user_id, user.email, user.username, hashed_password, now⟩
    ({ db with users := db.users ++ [row], nextUserId := db.nextUserId + 1 },
     .ok ⟨"User registered successfully.", user_id⟩)
/-- `POST /login/` (src/main.py lines 195–210). -/
def login (db : DB) (user : UserLogin) : Except HttpError LoginResponse :=
  match findUserByEmail db user.email with
  | none => .error ⟨400, "Invalid email or password."⟩
  | some db_user =>
    if verify_password user.password db_user.password then
      .ok ⟨"Login successful", ⟨db_user.user_id, db_user.email, db_user.username⟩⟩
    else
      .error ⟨400, "Invalid email or password."⟩
/-! ## Booking routes -/

/-- Detail string of the `asyncpg` exception raised when the inserted
`user_id` matches no row of `users` (`bookings_user_id_fkey`). -/
def fkViolationDetail : String :=
  "insert or update on table \"bookings\" violates foreign key constraint \"bookings_user_id_fkey\""
/-- `POST /book-table/` (src/main.py lines 215–236): one INSERT; a store
error (here: the foreign key from bookings.user_id to users) is caught and
re-raised as HTTP 500 with `str(e)` as detail. -/
def book_table (db : DB) (now : Int) (booking : BookingInput) :
    DB × Except HttpError MessageResponse :=
  if db.users.any (fun r => r.user_id == booking.user_id) then
    let row : BookingRow := ⟨db.nextBookingId, booking.user_id, booking.name, booking.email,
      booking.datetime, booking.no_of_people, booking.special_request, now⟩
    ({ db with bookings := db.bookings ++ [row], nextBookingId := db.nextBookingId + 1 },
     .ok ⟨"Table booked successfully."⟩)
  else
    (db, .error ⟨500, fkViolationDetail⟩)
def bookingView (b : BookingRow) : BookingView :=
  ⟨b.name, b.email, b.datetime, b.no_of_people, b.special_request⟩
/-- `GET /get-bookings/{user_id}` (src/main.py lines 239–258): fetch all
rows for the user; an empty result raises 404 (no enclosing try/except here,
so the 404 reaches the client). -/
def get_bookings (db : DB) (user_id : String) : Except HttpError BookingsResponse :=
  let rows := db.bookings.filter (fun b => b.user_id == user_id)
  if rows.isEmpty then
    .error ⟨404, "No bookings found for this user."⟩
  else
    .ok ⟨user_id, rows.map bookingView⟩
/-- `POST /contact-us/` (src/main.py lines 263–277). -/
def contact_us (db : DB) (now : Int) (name email subject message : String) :
    DB × Except HttpError MessageResponse :=
  let row : ContactRow := ⟨db.nextContactId, name, email, subject, message, now⟩
  ({ db with contacts := db.contacts ++ [row], nextContactId := db.nextContactId + 1 },
   .ok ⟨"Thank you for reaching out to us. We will get back to you soon!"⟩)
/-! ## The admin handlers' blanket exception wrapper

Each admin handler wraps its body in `try ... except Exception as e: raise
HTTPException(500, f"An error occurred: \x7bstr(e)\x7d")`.  `HTTPException`
is itself an `Exception` subclass and `str` of one renders as
`f"\x7bstatus_code\x7d: \x7bdetail\x7d"`, so an `HTTPException(404, ...)`
raised inside the `try` block is caught and re-raised as a 500.
-/

def httpExceptionStr (e : HttpError) : String :=
  toString e.status ++ ": " ++ e.detail
def catchAll500 (e : HttpError) : HttpError :=
  ⟨500, "An error occurred: " ++ httpExceptionStr e⟩
/-! ## Upload store -/

/-- `file_location = UPLOAD_DIR / filename; file_location.open("wb").write(content)`:
write the bytes under the content root, the caller-supplied filename as leaf
name, overwriting any previous content at that path, and return the path
string the caller persists. -/
def save_upload (fs : FileSystem) (filename : String) (content : List Nat) :
    FileSystem × String :=
  let file_location := UPLOAD_DIR ++ "/" ++ filename
  (fsWrite fs file_location content, file_location)
/-! ## Admin routes for events -/

/-- `POST /admin/add-event/` (src/main.py lines 282–307): save the image under
the content root, then INSERT the event with the path string. -/
def add_event (db : DB) (fs : FileSystem) (now : Int) (name description : String)
    (price : Int) (picFilename : String) (picContent : List Nat) :
    DB × FileSystem × Except HttpError MessageResponse :=
  let saved := save_upload fs picFilename picContent
  let row : EventRow := ⟨db.nextEventId, saved.2, name, description, price, now⟩
  ({ db with events := db.events ++ [row], nextEventId := db.nextEventId + 1 },
   saved.1, .ok ⟨"Event added successfully!"⟩)
def eventView (e : EventRow) : EventView :=
  ⟨e.id, e.pic_path, e.name, e.description, e.price, e.created_at⟩
/-- `GET /admin/get-all-events/` (src/main.py lines 310–332): the 404 raised
on an empty table is swallowed by the blanket `except` and resurfaces as 500. -/
def get_all_events (db : DB) : Except HttpError (List EventView) :=
  if db.events.isEmpty then
    .error (catchAll500 ⟨404, "No events found."⟩)
  else
    .ok (db.events.map eventView)
/-- `DELETE /admin/delete-event/{id}/` (src/main.py lines 460–473): run the
DELETE, then test the command status string; the 404 raised when it deleted
no row is swallowed by the blanket `except` and resurfaces as 500. -/
def delete_event (db : DB) (id : Nat) : DB × Except HttpError MessageResponse :=
  let remaining := db.events.filter (fun e => !(e.id == id))
  let result := "DELETE " ++ toString (db.events.length - remaining.length)
  let db := { db with events := remaining }
  if result == "DELETE 0" then
    (db, .error (catchAll500 ⟨404, "Event not found."⟩))
  else
    (db, .ok ⟨"Event deleted successfully."⟩)
/-! ## Admin routes for services -/

/-- `POST /admin/add-service/` (src/main.py lines 337–361). -/
def add_service (db : DB) (fs : FileSystem) (now : Int) (name description : String)
    (imageFilename : String) (imageContent : List Nat) :
    DB × FileSystem × Except HttpError MessageResponse :=
  let saved := save_upload fs imageFilename imageContent
  let row : ServiceRow := ⟨db.nextServiceId, saved.2, name, description, now⟩
  ({ db with services := db.services ++ [row], nextServiceId := db.nextServiceId + 1 },
   saved.1, .ok ⟨"Service added successfully!"⟩)
def serviceView (s : ServiceRow) : ServiceView :=
  ⟨s.id, s.image_path, s.name, s.description, s.created_at⟩
/-- `GET /admin/get-all-services/` (src/main.py lines 364–385). -/
def get_all_services (db : DB) : Except HttpError (List ServiceView) :=
  if db.services.isEmpty then
    .error (catchAll500 ⟨404, "No services found."⟩)
  else
    .ok (db.services.map serviceView)
/-- `DELETE /admin/delete-service/{id}/` (src/main.py lines 477–490). -/
def delete_service (db : DB) (id : Nat) : DB × Except HttpError MessageResponse :=
  let remaining := db.services.filter (fun s => !(s.id == id))
  let result := "DELETE " ++ toString (db.services.length - remaining.length)
  let db := { db with services := remaining }
  if result == "DELETE 0" then
    (db, .error (catchAll500 ⟨404, "Service not found."⟩))
  else
    (db, .ok ⟨"Service deleted successfully."⟩)
/-! ## Admin routes for team members -/

/-- `POST /admin/add-team-member/` (src/main.py lines 390–415). -/
def add_team_member (db : DB) (fs : FileSystem) (now : Int)
    (name designation description : String) (imageFilename : String)
    (imageContent : List Nat) : DB × FileSystem × Except HttpError MessageResponse :=
  let saved := save_upload fs imageFilename imageContent
  let row : TeamMemberRow :=
    ⟨db.nextTeamMemberId, saved.2, name, designation, description, now⟩
  let db := { db with team_members := db.team_members ++ [row] }
  ({ db with nextTeamMemberId := db.nextTeamMemberId + 1 },
   saved.1, .ok ⟨"Team member added successfully!"⟩)
def teamMemberView (m : TeamMemberRow) : TeamMemberView :=
  ⟨m.id, m.image_path, m.name, m.designation, m.description, m.created_at⟩
/-- `GET /admin/get-all-team-members/` (src/main.py lines 418–440). -/
def get_all_team_members (db : DB) : Except HttpError (List TeamMemberView) :=
  if db.team_members.isEmpty then
    .error (catchAll500 ⟨404, "No team members found."⟩)
  else
    .ok (db.team_members.map teamMemberView)
/-- `DELETE /admin/delete-team-member/{id}/` (src/main.py lines 443–456). -/
def delete_team_member (db : DB) (id : Nat) : DB × Except HttpError MessageResponse :=
  let remaining := db.team_members.filter (fun m => !(m.id == id))
  let result := "DELETE " ++ toString (db.team_members.length - remaining.length)
  let db := { db with team_members := remaining }
  if result == "DELETE 0" then
    (db, .error (catchAll500 ⟨404, "Team member not found."⟩))
  else
    (db, .ok ⟨"Team member deleted successfully."⟩)
/-! ## Schema Manager

The `startup` hook (src/main.py lines 77–160) issues six
`CREATE TABLE IF NOT EXISTS` statements.  A schema is a store-catalog entry
per table: name, columns (with type, nullability, uniqueness, primary key,
default) and foreign keys.  `CREATE TABLE IF NOT EXISTS` leaves an existing
table of the same name untouched, whatever its definition.
-/

structure Column where
  name : String
  sqlType : String
  notNull : Bool
  unique : Bool
  primaryKey : Bool
  defaultVal : Option String
deriving DecidableEq, Repr
structure ForeignKey where
  column : String
  refTable : String
  refColumn : String
  onDeleteCascade : Bool
deriving DecidableEq, Repr
structure TableDef where
  columns : List Column
  foreignKeys : List ForeignKey
deriving DecidableEq, Repr
abbrev Schema := List (String × TableDef)
def hasTable (s : Schema) (name : String) : Bool :=
  s.any (fun kv => kv.1 == name)
def createTableIfNotExists (s : Schema) (name : String) (t : TableDef) : Schema :=
  if hasTable s name then s else s ++ [(name, t)]
def usersTable : TableDef :=
  ⟨[⟨"id", "SERIAL", false, false, true, none⟩,
    ⟨"user_id", "UUID", true, true, false, none⟩,
    ⟨"email", "VARCHAR(255)", true, true, false, none⟩,
    ⟨"username", "VARCHAR(255)", true, false, false, none⟩,
    ⟨"password", "TEXT", true, false, false, none⟩,
    ⟨"created_at", "TIMESTAMP", false, false, false, some "CURRENT_TIMESTAMP"⟩], []⟩
def bookingsTable : TableDef :=
  ⟨[⟨"id", "SERIAL", false, false, true, none⟩,
    ⟨"user_id", "UUID", true, false, false, none⟩,
    ⟨"name", "VARCHAR(255)", true, false, false, none⟩,
    ⟨"email", "VARCHAR(255)", true, false, false, none⟩,
    ⟨"datetime", "TIMESTAMP WITH TIME ZONE", true, false, false, none⟩,
    ⟨"no_of_people", "INT", true, false, false, none⟩,
    ⟨"special_request", "TEXT", false, false, false, none⟩,
    ⟨"created_at", "TIMESTAMP", false, false, false, some "CURRENT_TIMESTAMP"⟩],
   [⟨"user_id", "users", "user_id", true⟩]⟩
def contactUsTable : TableDef :=
  ⟨[⟨"id", "SERIAL", false, false, true, none⟩,
    ⟨"name", "VARCHAR(255)", true, false, false, none⟩,
    ⟨"email", "VARCHAR(255)", true, false, false, none⟩,
    ⟨"subject", "TEXT", true, false, false, none⟩,
    ⟨"message", "TEXT", true, false, false, none⟩,
    ⟨"created_at", "TIMESTAMP", false, false, false, some "CURRENT_TIMESTAMP"⟩], []⟩
def eventsTable : TableDef :=
  ⟨[⟨"id", "SERIAL", false, false, true, none⟩,
    ⟨"pic_path", "TEXT", true, false, false, none⟩,
    ⟨"name", "VARCHAR(255)", true, false, false, none⟩,
    ⟨"description", "TEXT", true, false, false, none⟩,
    ⟨"price", "FLOAT", true, false, false, none⟩,
    ⟨"created_at", "TIMESTAMP", false, false, false, some "CURRENT_TIMESTAMP"⟩], []⟩
def servicesTable : TableDef :=
  ⟨[⟨"id", "SERIAL", false, false, true, none⟩,
    ⟨"image_path", "TEXT", true, false, false, none⟩,
    ⟨"name", "VARCHAR(255)", true, false, false, none⟩,
    ⟨"description", "TEXT", true, false, false, none⟩,
    ⟨"created_at", "TIMESTAMP", false, false, false, some "CURRENT_TIMESTAMP"⟩], []⟩
def teamMembersTable : TableDef :=
  ⟨[⟨"id", "SERIAL", false, false, true, none⟩,
    ⟨"image_path", "TEXT", true, false, false, none⟩,
    ⟨"name", "VARCHAR(255)", true, false, false, none⟩,
    ⟨"designation", "VARCHAR(255)", true, false, false, none⟩,
    ⟨"description", "TEXT", true, false, false, none⟩,
    ⟨"created_at", "TIMESTAMP", false, false, false, some "CURRENT_TIMESTAMP"⟩], []⟩
/-- The schema-creation sequence of the `startup` hook, applied to the store's
current catalog. -/
def startup_schema (s : Schema) : Schema :=
  let s := createTableIfNotExists s "users" usersTable
  let s := createTableIfNotExists s "bookings" bookingsTable
  let s := createTableIfNotExists s "contact_us" contactUsTable
  let s := createTableIfNotExists s "events" eventsTable
  let s := createTableIfNotExists s "services" servicesTable
  let s := createTableIfNotExists s "team_members" teamMembersTable
  s
/-! ## Concrete example data, used to evaluate the theorems -/

def aliceSignup : UserSignup := ⟨"alice@example.com", "alice", "hunter2"⟩
/-- A store holding exactly the user signed up from `aliceSignup`. -/
def dbAlice : DB := (signup emptyDB 0 "uuid-alice" 3 aliceSignup).1
def aliceRow : UserRow :=
  ⟨1, "uuid-alice", "alice@example.com", "alice", hash_password 3 "hunter2", 0⟩
/-- The strings stored in a users-table row. -/
def UserRow.storedStrings (r : UserRow) : List String :=
  [r.user_id, r.email, r.username, r.password]
/-- The strings appearing in a signup response. -/
def signupRespStrings (r : SignupResponse) : List String :=
  [r.message, r.user_id]
/-- The strings appearing in a login response. -/
def loginRespStrings (r : LoginResponse) : List String :=
  [r.message, r.user.user_id, r.user.email, r.user.username]
/-- Wall clock of 2025-03-01T10:00:00 UTC, in minutes since the epoch. -/
def marchTenAM : Int := 29013720
/-- The naive ISO-8601 input `"2025-03-01T10:00:00"`. -/
def naiveMarchDT : DateTimeVal := ⟨marchTenAM, none⟩
/-- The aware ISO-8601 input `"2025-03-01T15:00:00+05:00"` (same UTC instant). -/
def awareMarchDT : DateTimeVal := ⟨marchTenAM + 300, some 300⟩
/-- A booking request for zero people, as pydantic accepts it (`no_of_people`
is declared a plain `int`, with no positivity constraint). -/
def zeroPeopleBooking : BookingInput :=
  mkBookingInput "uuid-alice" "Alice" "alice@example.com" naiveMarchDT 0 none
/-- Alice's store after one booking for four people. -/
def dbAliceBooked : DB :=
  (book_table dbAlice 10 (mkBookingInput "uuid-alice" "Alice" "alice@example.com"
    naiveMarchDT 4 (some "window seat"))).1
/-- Alice's store after one event (id 1) is added. -/
def dbOneEvent : DB :=
  (add_event dbAlice [] 20 "Gala Night" "Dinner and show" 100 "gala.png" [1, 2, 3]).1
/-! ## Supporting lemmas -/
theorem natDigitsGo_congr :
    ∀ n f₁ f₂ : Nat, n ≤ f₁ → n ≤ f₂ → natDigitsGo f₁ n = natDigitsGo f₂ n := by
  intro n
  induction n using Nat.strong_induction_on with
  | _ n ih =>
    intro f₁ f₂ h₁ h₂
    by_cases hn : n < 10
    · cases f₁ <;> cases f₂ <;> simp [natDigitsGo, hn]
    · cases f₁ with
      | zero => omega
      | succ g₁ =>
        cases f₂ with
        | zero => omega
        | succ g₂ =>
          simp only [natDigitsGo, if_neg hn]
          rw [ih (n / 10) (Nat.div_lt_self (by omega) (by omega)) g₁ g₂
            (by omega) (by omega)]
theorem natDigits_of_lt {n : Nat} (h : n < 10) : natDigits n = [digitChar n] := by
  unfold natDigits
  cases n <;> simp [natDigitsGo, h]
theorem natDigits_of_ge {n : Nat} (h : 10 ≤ n) :
    natDigits n = natDigits (n / 10) ++ [digitChar (n % 10)] := by
  unfold natDigits
  cases n with
  | zero => omega
  | succ m =>
    simp only [natDigitsGo, if_neg (by omega : ¬ m + 1 < 10)]
    rw [natDigitsGo_congr ((m + 1) / 10) m ((m + 1) / 10) (by omega) (Nat.le_refl _)]
theorem charToDigit_digitChar {d : Nat} (h : d < 10) :
    charToDigit (digitChar d) = some d := by
  interval_cases d <;> rfl
theorem digitChar_ne_dollar {d : Nat} (h : d < 10) : digitChar d ≠ '$' := by
  interval_cases d <;> decide
theorem natDigits_ne_nil (n : Nat) : natDigits n ≠ [] := by
  by_cases h : n < 10
  · rw [natDigits_of_lt h]; simp
  · rw [natDigits_of_ge (by omega)]; simp
theorem natDigits_all_digit (n : Nat) : ∀ c ∈ natDigits n, ∃ d, d < 10 ∧ c = digitChar d := by
  induction n using Nat.strong_induction_on with
  | _ n ih =>
    by_cases h : n < 10
    · rw [natDigits_of_lt h]
      intro c hc
      simp only [List.mem_singleton] at hc
      exact ⟨n, by omega, hc⟩
    · rw [natDigits_of_ge (by omega)]
      intro c hc
      rcases List.mem_append.mp hc with h1 | h2
      · exact ih (n / 10) (Nat.div_lt_self (by omega) (by omega)) c h1
      · simp only [List.mem_singleton] at h2
        exact ⟨n % 10, Nat.mod_lt _ (by omega), h2⟩
theorem readNatAux_append (xs ys : List Char) (acc : Nat) :
    readNatAux (xs ++ ys) acc =
      match readNatAux xs acc with
      | some a => readNatAux ys a
      | none => none := by
  induction xs generalizing acc with
  | nil => simp [readNatAux]
  | cons c cs ih =>
    simp only [List.cons_append, readNatAux]
    cases charToDigit c with
    | none => rfl
    | some d => exact ih _
theorem readNatAux_natDigits (n acc : Nat) :
    readNatAux (natDigits n) acc = some (acc * 10 ^ (natDigits n).length + n) := by
  induction n using Nat.strong_induction_on generalizing acc with
  | _ n ih =>
    by_cases h : n < 10
    · rw [natDigits_of_lt h]
      simp only [readNatAux, charToDigit_digitChar h, List.length_singleton, pow_one]
    · rw [natDigits_of_ge (by omega)]
      rw [readNatAux_append]
      rw [ih (n / 10) (Nat.div_lt_self (by omega) (by omega)) acc]
      simp only [readNatAux, charToDigit_digitChar (Nat.mod_lt n (by omega)),
        List.length_append, List.length_singleton]
      have hmod := Nat.div_add_mod n 10
      have : (acc * 10 ^ (natDigits (n / 10)).length + n / 10) * 10 + n % 10 =
          acc * 10 ^ ((natDigits (n / 10)).length + 1) + n := by
        rw [pow_succ]; ring_nf; omega
      rw [this]
theorem readNat_natDigits (n : Nat) : readNat (natDigits n) = some n := by
  have hne := natDigits_ne_nil n
  unfold readNat
  match hnd : natDigits n with
  | [] => exact absurd hnd hne
  | c :: cs =>
    have := readNatAux_natDigits n 0
    rw [hnd] at this
    simpa using this
theorem splitAtDollar_append {xs : List Char} (ys : List Char)
    (h : ∀ c ∈ xs, c ≠ '$') : splitAtDollar (xs ++ '$' :: ys) = some (xs, ys) := by
  induction xs with
  | nil => simp [splitAtDollar]
  | cons c cs ih =>
    have hc : c ≠ '$' := h c (List.mem_cons_self c cs)
    simp only [List.cons_append, splitAtDollar, if_neg hc, List.append_eq]
    rw [ih fun d hd => h d (List.mem_cons_of_mem c hd)]
theorem natDigits_ne_dollar (n : Nat) : ∀ c ∈ natDigits n, c ≠ '$' := by
  intro c hc
  obtain ⟨d, hd, rfl⟩ := natDigits_all_digit n c hc
  exact digitChar_ne_dollar hd
theorem parseDigest_hash_password (salt : Nat) (password : String) :
    parseDigest (hash_password salt password) = some (salt, mash salt password) := by
  show parseDigest (String.mk _) = _
  unfold parseDigest
  simp only [hash_password, bcryptPrefixChars, List.cons_append, List.nil_append]
  rw [splitAtDollar_append _ (natDigits_ne_dollar salt)]
  simp only [readNat_natDigits]
theorem hasTable_createTableIfNotExists_self (s : Schema) (name : String) (t : TableDef) :
    hasTable (createTableIfNotExists s name t) name = true := by
  unfold createTableIfNotExists
  split
  · assumption
  · simp [hasTable, List.any_append]
theorem hasTable_createTableIfNotExists_of (s : Schema) (name m : String) (t : TableDef)
    (h : hasTable s m = true) : hasTable (createTableIfNotExists s name t) m = true := by
  unfold createTableIfNotExists
  split
  · exact h
  · simp only [hasTable, List.any_append] at h ⊢
    simp [h]
theorem createTableIfNotExists_of_hasTable (s : Schema) (name : String) (t : TableDef)
    (h : hasTable s name = true) : createTableIfNotExists s name t = s := by
  simp [createTableIfNotExists, h]
/-! ## Claims -/

/-- **C1.** For every signup request whose email already exists in the users
table, signup fails with HTTP 400 Conflict and inserts no row (the store is
returned unchanged); for every signup request with an email not present,
signup succeeds, returns the freshly generated `user_id`, and a subsequent
lookup by that email — the `fetchrow` that `login` performs — returns the
stored row, whose `username` is the submitted one. -/
theorem C1_signup_conflict_fresh (db : DB) (now : Int) (uid : String) (salt : Nat)
    (u : UserSignup) :
    ((∃ r ∈ db.users, r.email = u.email) →
      signup db now uid salt u = (db, .error ⟨400, "Email is already registered."⟩))
    ∧ ((∀ r ∈ db.users, r.email ≠ u.email) →
      ∃ row : UserRow,
        (signup db now uid salt u).1.users = db.users ++ [row]
        ∧ (signup db now uid salt u).2 = .ok ⟨"User registered successfully.", uid⟩
        ∧ row.user_id = uid
        ∧ row.username = u.username
        ∧ findUserByEmail (signup db now uid salt u).1 u.email = some row) := by
  constructor
  · rintro ⟨r, hr, hre⟩
    have hsome : (findUserByEmail db u.email).isSome := by
      unfold findUserByEmail
      rw [List.find?_isSome]
      exact ⟨r, hr, by simp [hre]⟩
    obtain ⟨x, hx⟩ := Option.isSome_iff_exists.mp hsome
    simp [signup, hx]
  · intro h
    have hnone : findUserByEmail db u.email = none := by
      unfold findUserByEmail
      rw [List.find?_eq_none]
      intro r hr
      simp only [Bool.not_eq_true, beq_eq_false_iff_ne]
      exact h r hr
    have hnone' : List.find? (fun r => r.email == u.email) db.users = none := hnone
    refine ⟨⟨db.nextUserId, uid, u.email, u.username, hash_password salt u.password, now⟩,
      ?_, ?_, rfl, rfl, ?_⟩
    · simp [signup, findUserByEmail, hnone']
    · simp [signup, findUserByEmail, hnone']
    · simp only [signup, findUserByEmail, hnone']
      rw [List.find?_append, hnone']
      simp [List.find?]
/-- Evaluation of `C1_signup_conflict_fresh`: a second signup with Alice's
email is rejected with the store unchanged, and a signup with a fresh email
against the empty store succeeds and is found again by email. -/
theorem C1_signup_conflict_fresh_witness :
    (signup dbAlice 5 "uuid-2" 7 ⟨"alice@example.com", "alice2", "pw2"⟩
      = (dbAlice, .error ⟨400, "Email is already registered."⟩))
    ∧ ∃ row : UserRow,
        (signup emptyDB 0 "uuid-alice" 3 aliceSignup).1.users = emptyDB.users ++ [row]
        ∧ (signup emptyDB 0 "uuid-alice" 3 aliceSignup).2
            = .ok ⟨"User registered successfully.", "uuid-alice"⟩
        ∧ row.user_id = "uuid-alice"
        ∧ row.username = aliceSignup.username
        ∧ findUserByEmail (signup emptyDB 0 "uuid-alice" 3 aliceSignup).1 aliceSignup.email
            = some row := by
  constructor
  · exact (C1_signup_conflict_fresh dbAlice 5 "uuid-2" 7
      ⟨"alice@example.com", "alice2", "pw2"⟩).1 ⟨aliceRow, by decide, by decide⟩
  · exact (C1_signup_conflict_fresh emptyDB 0 "uuid-alice" 3 aliceSignup).2
      (by intro r hr; simp [emptyDB] at hr)
/-- Verification of a password against its own digest succeeds. -/
theorem verify_password_hash_password (salt : Nat) (p : String) :
    verify_password p (hash_password salt p) = true := by
  unfold verify_password
  rw [parseDigest_hash_password]
  simp
/-- **C4.** For every login request: if the email is known and the password
verifies against the stored digest, the response contains exactly the identity
fields `user_id`, `email`, `username` of the stored row (the password column
is never echoed); and every failing request — wrong password for a known
email, or unknown email — produces one and the same observable response,
status 400 with detail `"Invalid email or password."`. -/
theorem C4_login_identity_uniform_failure (db : DB) (u : UserLogin) :
    (∀ row : UserRow, findUserByEmail db u.email = some row →
      verify_password u.password row.password = true →
      login db u = .ok ⟨"Login successful", ⟨row.user_id, row.email, row.username⟩⟩)
    ∧ (∀ e : HttpError, login db u = .error e →
      login db u = .error ⟨400, "Invalid email or password."⟩) := by
  constructor
  · intro row hfind hver
    simp [login, hfind, hver]
  · intro e he
    cases hfind : findUserByEmail db u.email with
    | none => simp [login, hfind]
    | some row =>
      by_cases hv : verify_password u.password row.password = true
      · have hok : login db u
            = .ok ⟨"Login successful", ⟨row.user_id, row.email, row.username⟩⟩ := by
          simp [login, hfind, hv]
        rw [hok] at he
        exact Except.noConfusion he
      · simp [login, hfind, hv]
/-- Evaluation of `C4_login_identity_uniform_failure`: Alice's correct login
echoes exactly her identity fields, and a wrong-password attempt is
indistinguishable from an unknown-email attempt. -/
theorem C4_login_identity_uniform_failure_witness :
    login dbAlice ⟨"alice@example.com", "hunter2"⟩
      = .ok ⟨"Login successful", ⟨"uuid-alice", "alice@example.com", "alice"⟩⟩
    ∧ login dbAlice ⟨"alice@example.com", "wrongpw"⟩
      = login dbAlice ⟨"bob@example.com", "hunter2"⟩ := by
  refine ⟨(C4_login_identity_uniform_failure dbAlice ⟨"alice@example.com", "hunter2"⟩).1
    aliceRow (by decide) (by decide), ?_⟩
  have h1 := (C4_login_identity_uniform_failure dbAlice ⟨"alice@example.com", "wrongpw"⟩).2
    ⟨400, "Invalid email or password."⟩ (by rfl)
  have h2 := (C4_login_identity_uniform_failure dbAlice ⟨"bob@example.com", "hunter2"⟩).2
    ⟨400, "Invalid email or password."⟩ (by rfl)
  exact h1.trans h2.symm
/-- **C6.** For every plaintext password `p` and salt, `verify(p, hash(p))`
returns `true`; and the only error path of `verify` is malformed digest
input, reported as a verification failure (`false`) rather than a propagated
fault.  (The hasher is modelled from §4.1 of the spec, since the bcrypt
implementation behind `pwd_context` is an external library.) -/
theorem C6_verify_roundtrip_malformed (salt : Nat) (p d : String) :
    verify_password p (hash_password salt p) = true
    ∧ (parseDigest d = none → verify_password p d = false) := by
  refine ⟨verify_password_hash_password salt p, fun h => ?_⟩
  unfold verify_password
  rw [h]
/-- Evaluation of `C6_verify_roundtrip_malformed` at a concrete password and
a concrete malformed digest. -/
theorem C6_verify_roundtrip_malformed_witness :
    verify_password "hunter2" (hash_password 3 "hunter2") = true
    ∧ verify_password "hunter2" "not-a-digest" = false :=
  ⟨(C6_verify_roundtrip_malformed 3 "hunter2" "not-a-digest").1,
   (C6_verify_roundtrip_malformed 3 "hunter2" "not-a-digest").2 (by decide)⟩
/-- **C10.** For every successful signup, the value stored in the users
table's password column is the digest `hash_password` produces from the
submitted password; the stored strings are exactly the uuid, email, username
and digest — so the plaintext (whenever it differs from those four values) is
never written to the store — and no signup or login response string draws on
the password column: signup echoes only its message and the uuid, login only
its message and the identity fields. -/
theorem C10_digest_stored_secrets_not_echoed (db : DB) (now : Int) (uid : String)
    (salt : Nat) (u : UserSignup) (h : ∀ r ∈ db.users, r.email ≠ u.email) :
    ∃ row : UserRow,
      (signup db now uid salt u).1.users = db.users ++ [row]
      ∧ row.password = hash_password salt u.password
      ∧ row.storedStrings = [uid, u.email, u.username, hash_password salt u.password]
      ∧ (u.password ≠ uid → u.password ≠ u.email → u.password ≠ u.username →
          u.password ≠ hash_password salt u.password → u.password ∉ row.storedStrings)
      ∧ (∀ resp, (signup db now uid salt u).2 = .ok resp →
          signupRespStrings resp = ["User registered successfully.", uid])
      ∧ (∀ resp, login (signup db now uid salt u).1 ⟨u.email, u.password⟩ = .ok resp →
          loginRespStrings resp = ["Login successful", uid, u.email, u.username]) := by
  have hnone : findUserByEmail db u.email = none := by
    unfold findUserByEmail
    rw [List.find?_eq_none]
    intro r hr
    simp only [Bool.not_eq_true, beq_eq_false_iff_ne]
    exact h r hr
  have hnone' : List.find? (fun r => r.email == u.email) db.users = none := hnone
  refine ⟨⟨db.nextUserId, uid, u.email, u.username, hash_password salt u.password, now⟩,
    ?_, rfl, rfl, ?_, ?_, ?_⟩
  · simp [signup, findUserByEmail, hnone']
  · intro h1 h2 h3 h4
    simp [UserRow.storedStrings, h1, h2, h3, h4]
  · intro resp hresp
    simp only [signup, findUserByEmail, hnone'] at hresp
    cases hresp
    rfl
  · intro resp hresp
    have hfind : findUserByEmail (signup db now uid salt u).1 u.email
        = some ⟨db.nextUserId, uid, u.email, u.username, hash_password salt u.password, now⟩ := by
      simp only [signup, findUserByEmail, hnone']
      rw [List.find?_append, hnone']
      simp [List.find?]
    have hlogin : login (signup db now uid salt u).1 ⟨u.email, u.password⟩
        = .ok ⟨"Login successful", ⟨uid, u.email, u.username⟩⟩ := by
      simp [login, hfind, verify_password_hash_password]
    rw [hlogin] at hresp
    cases hresp
    rfl
/-- Evaluation of `C10_digest_stored_secrets_not_echoed` on Alice's signup
against the empty store. -/
theorem C10_digest_stored_secrets_not_echoed_witness :
    ∃ row : UserRow,
      (signup emptyDB 0 "uuid-alice" 3 aliceSignup).1.users = emptyDB.users ++ [row]
      ∧ row.password = hash_password 3 aliceSignup.password
      ∧ row.storedStrings
          = ["uuid-alice", aliceSignup.email, aliceSignup.username,
             hash_password 3 aliceSignup.password]
      ∧ (aliceSignup.password ≠ "uuid-alice" → aliceSignup.password ≠ aliceSignup.email →
          aliceSignup.password ≠ aliceSignup.username →
          aliceSignup.password ≠ hash_password 3 aliceSignup.password →
          aliceSignup.password ∉ row.storedStrings)
      ∧ (∀ resp, (signup emptyDB 0 "uuid-alice" 3 aliceSignup).2 = .ok resp →
          signupRespStrings resp = ["User registered successfully.", "uuid-alice"])
      ∧ (∀ resp, login (signup emptyDB 0 "uuid-alice" 3 aliceSignup).1
            ⟨aliceSignup.email, aliceSignup.password⟩ = .ok resp →
          loginRespStrings resp
            = ["Login successful", "uuid-alice", aliceSignup.email, aliceSignup.username]) :=
  C10_digest_stored_secrets_not_echoed emptyDB 0 "uuid-alice" 3 aliceSignup
    (by intro r hr; simp [emptyDB] at hr)
/-- **C5.** Every booking datetime is normalized to UTC before storage: a
timezone-naive value is interpreted as UTC (offset `+00:00` attached, wall
clock unchanged), a timezone-aware value is converted to the equivalent UTC
instant, and the value `get_bookings` retrieves for the stored booking is
exactly that UTC-normalized value. -/
theorem C5_booking_datetime_utc (db : DB) (now : Int) (user_id name email : String)
    (dt : DateTimeVal) (n : Int) (sr : Option String)
    (hUser : db.users.any (fun r => r.user_id == user_id) = true) :
    (dt.tzOffset = none → ensure_timezone dt = ⟨dt.wallMinutes, some 0⟩)
    ∧ (∀ o : Int, dt.tzOffset = some o → ensure_timezone dt = ⟨dt.wallMinutes - o, some 0⟩)
    ∧ get_bookings (book_table db now (mkBookingInput user_id name email dt n sr)).1 user_id
        = .ok ⟨user_id, (db.bookings.filter (fun b => b.user_id == user_id)).map bookingView
            ++ [⟨name, email, ensure_timezone dt, n, sr⟩]⟩ := by
  refine ⟨?_, ?_, ?_⟩
  · intro h
    simp [ensure_timezone, h]
  · intro o h
    simp [ensure_timezone, h]
  · have hbt : (book_table db now (mkBookingInput user_id name email dt n sr)).1.bookings
        = db.bookings ++ [⟨db.nextBookingId, user_id, name, email, ensure_timezone dt, n, sr, now⟩] := by
      simp [book_table, mkBookingInput, hUser]
    unfold get_bookings
    rw [hbt, List.filter_append]
    simp [bookingView]
/-- Evaluation of `C5_booking_datetime_utc`: the naive `"2025-03-01T10:00:00"`
is retrieved as the same wall clock with offset `+00:00`, and
`"2025-03-01T15:00:00+05:00"` is retrieved as the UTC-converted instant. -/
theorem C5_booking_datetime_utc_witness :
    (ensure_timezone naiveMarchDT = ⟨marchTenAM, some 0⟩)
    ∧ get_bookings (book_table dbAlice 10
          (mkBookingInput "uuid-alice" "Alice" "alice@example.com" naiveMarchDT 4
            (some "window seat"))).1 "uuid-alice"
        = .ok ⟨"uuid-alice",
            [⟨"Alice", "alice@example.com", ensure_timezone naiveMarchDT, 4, some "window seat"⟩]⟩
    ∧ (ensure_timezone awareMarchDT = ⟨marchTenAM, some 0⟩)
    ∧ get_bookings (book_table dbAlice 10
          (mkBookingInput "uuid-alice" "Bob" "alice@example.com" awareMarchDT 2 none)).1 "uuid-alice"
        = .ok ⟨"uuid-alice", [⟨"Bob", "alice@example.com", ensure_timezone awareMarchDT, 2, none⟩]⟩ := by
  have h1 := C5_booking_datetime_utc dbAlice 10 "uuid-alice" "Alice" "alice@example.com"
    naiveMarchDT 4 (some "window seat") (by decide)
  have h2 := C5_booking_datetime_utc dbAlice 10 "uuid-alice" "Bob" "alice@example.com"
    awareMarchDT 2 none (by decide)
  refine ⟨h1.1 rfl, ?_, ?_, ?_⟩
  · have := h1.2.2
    simpa [dbAlice, signup, emptyDB, findUserByEmail] using this
  · have := h2.2.1 300 rfl
    simpa [awareMarchDT, marchTenAM] using this
  · have := h2.2.2
    simpa [dbAlice, signup, emptyDB, findUserByEmail] using this
/-- **C7.** Schema creation is idempotent: running the six
`CREATE TABLE IF NOT EXISTS` statements a second time against any store
catalog leaves it exactly as the first run did — no error, no duplicate and
no altered table — and from an empty catalog the run creates exactly the six
tables. -/
theorem C7_startup_schema_idempotent (s : Schema) :
    startup_schema (startup_schema s) = startup_schema s
    ∧ (startup_schema []).map Prod.fst
        = ["users", "bookings", "contact_us", "events", "services", "team_members"] := by
  constructor
  · have h6 : ∀ name t, hasTable (startup_schema s) name = true →
        createTableIfNotExists (startup_schema s) name t = startup_schema s :=
      fun name t h => createTableIfNotExists_of_hasTable _ name t h
    have hu : hasTable (startup_schema s) "users" = true := by
      unfold startup_schema
      exact hasTable_createTableIfNotExists_of _ _ _ _
        (hasTable_createTableIfNotExists_of _ _ _ _
          (hasTable_createTableIfNotExists_of _ _ _ _
            (hasTable_createTableIfNotExists_of _ _ _ _
              (hasTable_createTableIfNotExists_of _ _ _ _
                (hasTable_createTableIfNotExists_self _ _ _)))))
    have hb : hasTable (startup_schema s) "bookings" = true := by
      unfold startup_schema
      exact hasTable_createTableIfNotExists_of _ _ _ _
        (hasTable_createTableIfNotExists_of _ _ _ _
          (hasTable_createTableIfNotExists_of _ _ _ _
            (hasTable_createTableIfNotExists_of _ _ _ _
              (hasTable_createTableIfNotExists_self _ _ _))))
    have hc : hasTable (startup_schema s) "contact_us" = true := by
      unfold startup_schema
      exact hasTable_createTableIfNotExists_of _ _ _ _
        (hasTable_createTableIfNotExists_of _ _ _ _
          (hasTable_createTableIfNotExists_of _ _ _ _
            (hasTable_createTableIfNotExists_self _ _ _)))
    have he : hasTable (startup_schema s) "events" = true := by
      unfold startup_schema
      exact hasTable_createTableIfNotExists_of _ _ _ _
        (hasTable_createTableIfNotExists_of _ _ _ _
          (hasTable_createTableIfNotExists_self _ _ _))
    have hv : hasTable (startup_schema s) "services" = true := by
      unfold startup_schema
      exact hasTable_createTableIfNotExists_of _ _ _ _
        (hasTable_createTableIfNotExists_self _ _ _)
    have ht : hasTable (startup_schema s) "team_members" = true := by
      unfold startup_schema
      exact hasTable_createTableIfNotExists_self _ _ _
    conv_lhs => rw [startup_schema]
    rw [h6 _ _ hu, h6 _ _ hb, h6 _ _ hc, h6 _ _ he, h6 _ _ hv, h6 _ _ ht]
  · decide
/-- **C8 counterexample.** The claim "every `no_of_people` value inserted by
an accepted booking is strictly greater than zero" is false: a booking for
zero people is accepted by `book_table` and the inserted row stores `0`. -/
theorem C8_counterexample_zero_people :
    (book_table dbAlice 10 zeroPeopleBooking).2 = .ok ⟨"Table booked successfully."⟩
    ∧ (book_table dbAlice 10 zeroPeopleBooking).1.bookings.map (fun b => b.no_of_people)
        = [0] := by
  exact ⟨rfl, rfl⟩
/-- **C8 (amended).** `book_table` performs no positivity check: every booking
whose `user_id` references an existing user is accepted, and the stored
`no_of_people` is exactly the submitted integer, whatever its sign. -/
theorem C8_no_of_people_stored_verbatim (db : DB) (now : Int) (b : BookingInput)
    (hUser : db.users.any (fun r => r.user_id == b.user_id) = true) :
    (book_table db now b).2 = .ok ⟨"Table booked successfully."⟩
    ∧ (book_table db now b).1.bookings
        = db.bookings ++ [⟨db.nextBookingId, b.user_id, b.name, b.email, b.datetime,
            b.no_of_people, b.special_request, now⟩] := by
  constructor
  · simp [book_table, hUser]
  · simp [book_table, hUser]
/-- Evaluation of `C8_no_of_people_stored_verbatim` on the zero-people booking. -/
theorem C8_no_of_people_stored_verbatim_witness :
    (book_table dbAlice 10 zeroPeopleBooking).2 = .ok ⟨"Table booked successfully."⟩
    ∧ (book_table dbAlice 10 zeroPeopleBooking).1.bookings
        = dbAlice.bookings ++ [⟨dbAlice.nextBookingId, zeroPeopleBooking.user_id,
            zeroPeopleBooking.name, zeroPeopleBooking.email, zeroPeopleBooking.datetime,
            zeroPeopleBooking.no_of_people, zeroPeopleBooking.special_request, 10⟩] :=
  C8_no_of_people_stored_verbatim dbAlice 10 zeroPeopleBooking (by decide)
/-- **C9.** For every upload `save(filename, bytes)`: the byte content is
written under the fixed content root `uploaded_images` with the
caller-supplied filename verbatim as leaf name; re-using a filename silently
overwrites the previous content at that path (the store after overwriting an
old binding equals the store after a fresh write); and the path string
`save` returns is exactly the one persisted in the owning row —
`events.pic_path`, `services.image_path`, `team_members.image_path`. -/
theorem C9_upload_store_contract (db : DB) (fs : FileSystem) (now : Int)
    (name description designation : String) (price : Int) (filename : String)
    (content oldContent : List Nat) :
    (save_upload fs filename content).2 = UPLOAD_DIR ++ "/" ++ filename
    ∧ fsRead (save_upload fs filename content).1 (UPLOAD_DIR ++ "/" ++ filename)
        = some content
    ∧ (save_upload (fsWrite fs (UPLOAD_DIR ++ "/" ++ filename) oldContent) filename content).1
        = (save_upload fs filename content).1
    ∧ (add_event db fs now name description price filename content).1.events
        = db.events ++ [⟨db.nextEventId, (save_upload fs filename content).2,
            name, description, price, now⟩]
    ∧ (add_event db fs now name description price filename content).2.1
        = (save_upload fs filename content).1
    ∧ (add_service db fs now name description filename content).1.services
        = db.services ++ [⟨db.nextServiceId, (save_upload fs filename content).2,
            name, description, now⟩]
    ∧ (add_team_member db fs now name designation description filename content).1.team_members
        = db.team_members ++ [⟨db.nextTeamMemberId, (save_upload fs filename content).2,
            name, designation, description, now⟩] := by
  refine ⟨rfl, ?_, ?_, rfl, rfl, rfl, rfl⟩
  · simp [save_upload, fsWrite, fsRead, List.find?]
  · simp only [save_upload, fsWrite]
    rw [List.filter_cons]
    simp [List.filter_filter]
/-- **C2.** Listing bookings for a user with zero bookings yields 404
NotFound, and after one booking is created the same query yields exactly one
entry with matching fields — both as claimed.  But the three admin list
operations do *not* return 404 on an empty table: the handler raises
`HTTPException(404)` inside its `try` block, the blanket `except Exception`
catches it (an `HTTPException` is an `Exception`), and re-raises it as HTTP
500 with detail `"An error occurred: 404: ..."`; so the claimed NotFound is
observable only on `get-bookings`, while `get-all-events`,
`get-all-services` and `get-all-team-members` answer 500. -/
theorem C2_empty_list_results :
    get_bookings dbAlice "uuid-alice" = .error ⟨404, "No bookings found for this user."⟩
    ∧ get_bookings dbAliceBooked "uuid-alice"
        = .ok ⟨"uuid-alice", [⟨"Alice", "alice@example.com", ⟨marchTenAM, some 0⟩, 4,
            some "window seat"⟩]⟩
    ∧ get_all_events dbAlice = .error ⟨500, "An error occurred: 404: No events found."⟩
    ∧ get_all_services dbAlice = .error ⟨500, "An error occurred: 404: No services found."⟩
    ∧ get_all_team_members dbAlice
        = .error ⟨500, "An error occurred: 404: No team members found."⟩ :=
  ⟨rfl, rfl, rfl, rfl, rfl⟩
/-- **C3.** Deleting an existing id does remove the row (the subsequent list
no longer contains it), but neither the not-found branch nor the
empty-after-delete list answers 404: the `HTTPException(404)` each handler
raises inside its `try` block is caught by the blanket `except Exception`
and re-raised as HTTP 500 with detail `"An error occurred: 404: ..."`.  The
store is nevertheless unchanged when no row matches the id. -/
theorem C3_delete_results :
    delete_event dbOneEvent 2
        = (dbOneEvent, .error ⟨500, "An error occurred: 404: Event not found."⟩)
    ∧ (delete_event dbOneEvent 1).2 = .ok ⟨"Event deleted successfully."⟩
    ∧ (delete_event dbOneEvent 1).1.events = []
    ∧ get_all_events (delete_event dbOneEvent 1).1
        = .error ⟨500, "An error occurred: 404: No events found."⟩
    ∧ delete_team_member dbAlice 1
        = (dbAlice, .error ⟨500, "An error occurred: 404: Team member not found."⟩)
    ∧ delete_service dbAlice 1
        = (dbAlice, .error ⟨500, "An error occurred: 404: Service not found."⟩) :=
  ⟨rfl, rfl, rfl, rfl, rfl, rfl⟩
end RestWeb
